import Mathlib

/-!
Shallow embedding of `src/index.js` of the MetaMask inpage provider.

The embedding models JavaScript values that the provider manipulates
(`undefined`, `null`, strings) as the inductive `JVal`, the public-config
state snapshots as `Snap` (a field mapped to `none` is absent from the
snapshot object), the instance-level mirror `self.selectedAddress` /
`self.networkVersion` as `Mirror`, and the module-level flags
`isEnabled` / `isConnected` as explicit state threaded through the
functions.  Event emission is modelled by returning the list of emitted
events in program order.
-/

namespace Inpage

/-- A JavaScript primitive value as it appears in the provider's state
fields: `undefined`, `null`, or a string. -/
inductive JVal where
  | undef : JVal
  | nullv : JVal
  | str : String → JVal
deriving DecidableEq, Repr

/-- A public-config state snapshot as delivered to the
`publicConfigStore.subscribe` handler.  `none` means the key is absent
from the snapshot object (the JavaScript `'key' in state` test fails). -/
structure Snap where
  selectedAddress : Option JVal
  networkVersion : Option JVal
deriving DecidableEq, Repr

/-- The instance-level mirrored values `self.selectedAddress` and
`self.networkVersion`; both are initialised to `undefined` in the
constructor. -/
structure Mirror where
  selectedAddress : JVal
  networkVersion : JVal
deriving DecidableEq, Repr

/-- The initial mirror set up by the `MetamaskInpageProvider` constructor. -/
def Mirror.init : Mirror := ⟨JVal.undef, JVal.undef⟩

/-- Events emitted by the `publicConfigStore.subscribe` handler. -/
inductive PEvent where
  | connect : PEvent
  | accountsChanged : List JVal → PEvent
  | networkChanged : JVal → PEvent
deriving DecidableEq, Repr

/-- The `selectedAddress` part of the subscribe handler:
`if ('selectedAddress' in state && state.selectedAddress !== self.selectedAddress)
 \x7b self.selectedAddress = state.selectedAddress;
 self.emit('accountsChanged', [self.selectedAddress]) \x7d`.
Returns the new mirrored value and the emitted events. -/
def addrStep (m : JVal) : Option JVal → JVal × List PEvent
  | some v => if v ≠ m then (v, [PEvent.accountsChanged [v]]) else (m, [])
  | none => (m, [])

/-- The `networkVersion` part of the subscribe handler:
`if ('networkVersion' in state && state.networkVersion !== self.networkVersion)
 \x7b self.networkVersion = state.networkVersion;
 self.emit('networkChanged', state.networkVersion) \x7d`. -/
def netStep (m : JVal) : Option JVal → JVal × List PEvent
  | some v => if v ≠ m then (v, [PEvent.networkChanged v]) else (m, [])
  | none => (m, [])

/-- The whole `publicConfigStore.subscribe` handler, lines 40–57 of
`src/index.js`.  Takes the module-level `isConnected` flag, the instance
mirror and the incoming snapshot; returns the new flag, the new mirror
and the events emitted, in program order (`connect` first, then
`accountsChanged`, then `networkChanged`). -/
def handleSnap (isConnected : Bool) (m : Mirror) (s : Snap) :
    Bool × Mirror × List PEvent :=
  let cp := if isConnected then (isConnected, ([] : List PEvent))
            else (true, [PEvent.connect])
  let a := addrStep m.selectedAddress s.selectedAddress
  let n := netStep m.networkVersion s.networkVersion
  (cp.1, ⟨a.1, n.1⟩, cp.2 ++ a.2 ++ n.2)

/-- Deliver a list of snapshots in order, starting from flag `c` and
mirror `m`; returns the list of event lists, one per snapshot. -/
def runSnaps (c : Bool) (m : Mirror) : List Snap → List (List PEvent)
  | [] => []
  | s :: rest =>
    let r := handleSnap c m s
    r.2.2 :: runSnaps r.1 r.2.1 rest

/-- Number of `connect` events in an event list. -/
def countConnect (evs : List PEvent) : Nat :=
  evs.count PEvent.connect

theorem handleSnap_connected (c : Bool) (m : Mirror) (s : Snap) :
    (handleSnap c m s).1 = true := by
  cases c <;> rfl

theorem addrStep_no_connect (m : JVal) (o : Option JVal) :
    countConnect (addrStep m o).2 = 0 := by
  cases o with
  | none => rfl
  | some v =>
    by_cases h : v = m
    · simp [addrStep, h, countConnect]
    · simp [addrStep, h, countConnect, List.count_cons, List.count_nil]

theorem netStep_no_connect (m : JVal) (o : Option JVal) :
    countConnect (netStep m o).2 = 0 := by
  cases o with
  | none => rfl
  | some v =>
    by_cases h : v = m
    · simp [netStep, h, countConnect]
    · simp [netStep, h, countConnect, List.count_cons, List.count_nil]

theorem countConnect_append (l₁ l₂ : List PEvent) :
    countConnect (l₁ ++ l₂) = countConnect l₁ + countConnect l₂ :=
  List.count_append _ _ _

theorem countConnect_handleSnap_false (m : Mirror) (s : Snap) :
    countConnect (handleSnap false m s).2.2 = 1 := by
  unfold handleSnap
  simp only [Bool.false_eq_true, if_false]
  rw [countConnect_append, countConnect_append,
      addrStep_no_connect, netStep_no_connect]
  rfl

theorem countConnect_handleSnap_true (m : Mirror) (s : Snap) :
    countConnect (handleSnap true m s).2.2 = 0 := by
  unfold handleSnap
  simp only [if_true]
  rw [countConnect_append, countConnect_append,
      addrStep_no_connect, netStep_no_connect]
  rfl

theorem runSnaps_true_no_connect (snaps : List Snap) :
    ∀ m : Mirror, ((runSnaps true m snaps).map countConnect).sum = 0 := by
  induction snaps with
  | nil => intro m; rfl
  | cons s rest ih =>
    intro m
    unfold runSnaps
    rw [List.map_cons, List.sum_cons]
    rw [handleSnap_connected true m s]
    rw [countConnect_handleSnap_true, ih]

theorem addrStep_fst (m : JVal) (o : Option JVal) :
    (addrStep m o).1 = o.getD m := by
  cases o with
  | none => rfl
  | some v => by_cases h : v = m <;> simp [addrStep, h]

theorem netStep_fst (m : JVal) (o : Option JVal) :
    (netStep m o).1 = o.getD m := by
  cases o with
  | none => rfl
  | some v => by_cases h : v = m <;> simp [netStep, h]

theorem addrStep_repeat (m : JVal) (o : Option JVal) :
    (addrStep (addrStep m o).1 o).2 = [] := by
  cases o with
  | none => rfl
  | some v => rw [addrStep_fst]; simp [addrStep]

theorem netStep_repeat (m : JVal) (o : Option JVal) :
    (netStep (netStep m o).1 o).2 = [] := by
  cases o with
  | none => rfl
  | some v => rw [netStep_fst]; simp [netStep]

theorem handleSnap_mirror (c : Bool) (m : Mirror) (s : Snap) :
    (handleSnap c m s).2.1 =
      ⟨(addrStep m.selectedAddress s.selectedAddress).1,
       (netStep m.networkVersion s.networkVersion).1⟩ := by
  cases c <;> rfl

theorem handleSnap_repeat (c : Bool) (m : Mirror) (s : Snap) :
    (handleSnap (handleSnap c m s).1 (handleSnap c m s).2.1 s).2.2 = [] := by
  rw [handleSnap_connected, handleSnap_mirror]
  show ([] ++ (addrStep (addrStep m.selectedAddress s.selectedAddress).1
      s.selectedAddress).2 ++ (netStep (netStep m.networkVersion
      s.networkVersion).1 s.networkVersion).2) = []
  rw [addrStep_repeat, netStep_repeat]
  rfl

theorem accountsChanged_mem_addrStep (m : JVal) (o : Option JVal) (v : JVal) :
    PEvent.accountsChanged [v] ∈ (addrStep m o).2 ↔ o = some v ∧ v ≠ m := by
  cases o with
  | none => simp [addrStep]
  | some w =>
    by_cases h : w = m
    · subst h
      simp [addrStep]
      exact fun h1 => h1.symm
    · simp [addrStep, h]
      constructor
      · rintro rfl
        exact ⟨rfl, h⟩
      · rintro ⟨rfl, -⟩
        rfl

theorem networkChanged_mem_netStep (m : JVal) (o : Option JVal) (v : JVal) :
    PEvent.networkChanged v ∈ (netStep m o).2 ↔ o = some v ∧ v ≠ m := by
  cases o with
  | none => simp [netStep]
  | some w =>
    by_cases h : w = m
    · subst h
      simp [netStep]
      exact fun h1 => h1.symm
    · simp [netStep, h]
      constructor
      · rintro rfl
        exact ⟨rfl, h⟩
      · rintro ⟨rfl, -⟩
        rfl

theorem accountsChanged_not_mem_netStep (m : JVal) (o : Option JVal)
    (p : List JVal) : PEvent.accountsChanged p ∉ (netStep m o).2 := by
  cases o with
  | none => simp [netStep]
  | some w => by_cases h : w = m <;> simp [netStep, h]

theorem networkChanged_not_mem_addrStep (m : JVal) (o : Option JVal)
    (v : JVal) : PEvent.networkChanged v ∉ (addrStep m o).2 := by
  cases o with
  | none => simp [addrStep]
  | some w => by_cases h : w = m <;> simp [addrStep, h]

theorem mem_handleSnap (c : Bool) (m : Mirror) (s : Snap) (e : PEvent) :
    e ∈ (handleSnap c m s).2.2 ↔
      (c = false ∧ e = PEvent.connect) ∨
      e ∈ (addrStep m.selectedAddress s.selectedAddress).2 ∨
      e ∈ (netStep m.networkVersion s.networkVersion).2 := by
  cases c <;> simp [handleSnap, List.mem_append, or_assoc]

/-- C2: for every sequence of N ≥ 1 state snapshots delivered after the
stream is established (module flag `isConnected` initially `false`), the
`connect` event is emitted exactly once in total across the whole
sequence, and it is emitted on the first snapshot; repeated snapshots
never emit `connect` again. -/
theorem C2_connect_exactly_once (m : Mirror) (snaps : List Snap)
    (h : snaps ≠ []) :
    ((runSnaps false m snaps).map countConnect).sum = 1 ∧
    countConnect ((runSnaps false m snaps).headI) = 1 := by
  cases snaps with
  | nil => exact absurd rfl h
  | cons s rest =>
    constructor
    · simp only [runSnaps]
      rw [List.map_cons, List.sum_cons, handleSnap_connected,
          countConnect_handleSnap_false, runSnaps_true_no_connect]
    · simp only [runSnaps, List.headI]
      exact countConnect_handleSnap_false m s

/-- Witness for C2: a concrete two-snapshot run emits `connect` exactly
once, on the first snapshot. -/
theorem C2_connect_exactly_once_witness :
    (([⟨some (JVal.str "0xabc"), none⟩,
       ⟨some (JVal.str "0xabc"), none⟩] : List Snap) ≠ []) ∧
    (((runSnaps false Mirror.init
        [⟨some (JVal.str "0xabc"), none⟩,
         ⟨some (JVal.str "0xabc"), none⟩]).map countConnect).sum = 1 ∧
     countConnect ((runSnaps false Mirror.init
        [⟨some (JVal.str "0xabc"), none⟩,
         ⟨some (JVal.str "0xabc"), none⟩]).headI) = 1) :=
  ⟨by decide, C2_connect_exactly_once Mirror.init _ (by decide)⟩

/-- C3: a field-specific change event (`accountsChanged` for
`selectedAddress`, `networkChanged` for `networkVersion`) is raised if
and only if that field is present in the snapshot and differs by value
from the last mirrored value; delivering the same snapshot twice in a
row raises zero additional events on the second delivery; and a field
absent from a snapshot leaves the mirrored value unchanged (never
cleared). -/
theorem C3_field_change_events (c : Bool) (m : Mirror) (s : Snap) :
    (∀ v, PEvent.accountsChanged [v] ∈ (handleSnap c m s).2.2 ↔
      (s.selectedAddress = some v ∧ v ≠ m.selectedAddress)) ∧
    (∀ v, PEvent.networkChanged v ∈ (handleSnap c m s).2.2 ↔
      (s.networkVersion = some v ∧ v ≠ m.networkVersion)) ∧
    ((handleSnap (handleSnap c m s).1 (handleSnap c m s).2.1 s).2.2 = []) ∧
    (s.selectedAddress = none →
      (handleSnap c m s).2.1.selectedAddress = m.selectedAddress) ∧
    (s.networkVersion = none →
      (handleSnap c m s).2.1.networkVersion = m.networkVersion) := by
  refine ⟨?_, ?_, handleSnap_repeat c m s, ?_, ?_⟩
  · intro v
    rw [mem_handleSnap, accountsChanged_mem_addrStep]
    constructor
    · rintro (⟨-, he⟩ | hp | hm)
      · exact PEvent.noConfusion he
      · exact hp
      · exact absurd hm (accountsChanged_not_mem_netStep _ _ _)
    · exact fun hp => Or.inr (Or.inl hp)
  · intro v
    rw [mem_handleSnap, networkChanged_mem_netStep]
    constructor
    · rintro (⟨-, he⟩ | hm | hp)
      · exact PEvent.noConfusion he
      · exact absurd hm (networkChanged_not_mem_addrStep _ _ _)
      · exact hp
    · exact fun hp => Or.inr (Or.inr hp)
  · intro hn
    rw [handleSnap_mirror]
    show (addrStep m.selectedAddress s.selectedAddress).1 = m.selectedAddress
    rw [hn]
    rfl
  · intro hn
    rw [handleSnap_mirror]
    show (netStep m.networkVersion s.networkVersion).1 = m.networkVersion
    rw [hn]
    rfl

/-- Witness for C3: at a concrete snapshot that changes the address, the
iff direction produces the `accountsChanged` event. -/
theorem C3_field_change_events_witness :
    PEvent.accountsChanged [JVal.str "0xabc"] ∈
      (handleSnap true Mirror.init ⟨some (JVal.str "0xabc"), none⟩).2.2 :=
  ((C3_field_change_events true Mirror.init
      ⟨some (JVal.str "0xabc"), none⟩).1 (JVal.str "0xabc")).mpr
    ⟨rfl, by decide⟩

/-- C9 counterexample: clearing the selected address (snapshot field
present with value `null`) makes the handler emit `accountsChanged` with
payload `[null]` — a one-element list — not the empty list that the
claim requires for a cleared address. -/
theorem C9_counterexample :
    (handleSnap true ⟨JVal.str "0xabc", JVal.undef⟩
        ⟨some JVal.nullv, none⟩).2.2
      = [PEvent.accountsChanged [JVal.nullv]] ∧
    [JVal.nullv] ≠ ([] : List JVal) := by decide

/-- C9 (amended): whenever a snapshot changes `selectedAddress`, the
`accountsChanged` payload is always a one-element list holding the new
field value verbatim (which may be `null` rather than an address); an
empty payload list is never produced. -/
theorem C9_payload_always_singleton (c : Bool) (m : Mirror) (s : Snap)
    (p : List JVal)
    (h : PEvent.accountsChanged p ∈ (handleSnap c m s).2.2) :
    ∃ v, p = [v] ∧ s.selectedAddress = some v ∧ v ≠ m.selectedAddress := by
  rw [mem_handleSnap] at h
  rcases h with ⟨-, he⟩ | hp | hm
  · exact PEvent.noConfusion he
  · cases hs : s.selectedAddress with
    | none =>
      rw [hs] at hp
      exact absurd hp (List.not_mem_nil _)
    | some w =>
      rw [hs] at hp
      by_cases hw : w = m.selectedAddress
      · simp [addrStep, hw] at hp
      · simp [addrStep, hw] at hp
        exact ⟨w, by rw [hp], rfl, hw⟩
  · exact absurd hm (accountsChanged_not_mem_netStep _ _ _)

/-- Witness for C9 (amended): at the clearing snapshot the payload is the
singleton `[null]`. -/
theorem C9_payload_always_singleton_witness :
    ∃ v, ([JVal.nullv] : List JVal) = [v] ∧
      (⟨some JVal.nullv, none⟩ : Snap).selectedAddress = some v ∧
      v ≠ (⟨JVal.str "0xabc", JVal.undef⟩ : Mirror).selectedAddress :=
  C9_payload_always_singleton true ⟨JVal.str "0xabc", JVal.undef⟩
    ⟨some JVal.nullv, none⟩ [JVal.nullv] (by decide)

/-! ### The legacy synchronous facade `_sendSync` (lines 145–188) -/

/-- A JSON-RPC payload as handed to `_sendSync` / `sendAsync`. -/
structure Payload where
  id : Option Int
  jsonrpc : Option String
  method : String
  params : List String
deriving DecidableEq, Repr

/-- A JSON-RPC result value as produced by `_sendSync`: `null`, a
boolean, a string or an array of strings. -/
inductive RVal where
  | rnull : RVal
  | rbool : Bool → RVal
  | rstr : String → RVal
  | rarr : List String → RVal
deriving DecidableEq, Repr

/-- The synchronous response object `\x7b id, jsonrpc, result \x7d`
built at the end of `_sendSync`. -/
structure SyncResponse where
  id : Option Int
  jsonrpc : Option String
  result : RVal
deriving DecidableEq, Repr

/-- JavaScript truthiness of a possibly-absent state field as tested by
`selectedAddress ? ... : ...` and `x || null`: only a non-empty string
is truthy; `undefined`, `null`, an absent key and the empty string are
falsy.  Returns the string when truthy. -/
def truthyStr : Option JVal → Option String
  | some (JVal.str s) => if s = "" then none else some s
  | _ => none

/-- The URL interpolated into the unsupported-method error message. -/
def syncFaqLink : String :=
  "https://github.com/MetaMask/faq/blob/master/DEVELOPERS.md#dizzy-all-async---think-of-metamask-as-a-light-client"

/-- `MetamaskInpageProvider.prototype._sendSync`, lines 145–188.  The
`store` argument is the current `publicConfigStore` state (the last
full snapshot written to the store, initially empty).  Returns either
the thrown error message (`Except.error`, the `default:` branch) or the
synchronous response together with the list of payloads passed to
`self.sendAsync` for asynchronous dispatch (`eth_uninstallFilter`
dispatches its own payload once; every other supported method dispatches
nothing). -/
def sendSync (store : Snap) (p : Payload) :
    Except String (SyncResponse × List Payload) :=
  if p.method = "eth_accounts" then
    let result := match truthyStr store.selectedAddress with
      | some s => RVal.rarr [s]
      | none => RVal.rarr []
    Except.ok (⟨p.id, p.jsonrpc, result⟩, [])
  else if p.method = "eth_coinbase" then
    let result := match truthyStr store.selectedAddress with
      | some s => RVal.rstr s
      | none => RVal.rnull
    Except.ok (⟨p.id, p.jsonrpc, result⟩, [])
  else if p.method = "eth_uninstallFilter" then
    Except.ok (⟨p.id, p.jsonrpc, RVal.rbool true⟩, [p])
  else if p.method = "net_version" then
    let result := match truthyStr store.networkVersion with
      | some s => RVal.rstr s
      | none => RVal.rnull
    Except.ok (⟨p.id, p.jsonrpc, result⟩, [])
  else
    Except.error
      ("The MetaMask Web3 object does not support synchronous methods like "
        ++ p.method ++ " without a callback parameter. See "
        ++ syncFaqLink ++ " for details.")

/-- The empty `publicConfigStore` state before any snapshot arrives. -/
def emptyStore : Snap := ⟨none, none⟩

/-- C4: a synchronous `eth_accounts` call returns `\x7b result: [] \x7d`
while the store holds no `selectedAddress`, and
`\x7b result: [a] \x7d` once the store holds a (non-empty string)
address `a`. -/
theorem C4_eth_accounts_sync (store : Snap) (idv : Option Int)
    (jv : Option String) (ps : List String) :
    (store.selectedAddress = none →
      sendSync store ⟨idv, jv, "eth_accounts", ps⟩ =
        Except.ok (⟨idv, jv, RVal.rarr []⟩, [])) ∧
    (∀ a, a ≠ "" → store.selectedAddress = some (JVal.str a) →
      sendSync store ⟨idv, jv, "eth_accounts", ps⟩ =
        Except.ok (⟨idv, jv, RVal.rarr [a]⟩, [])) := by
  constructor
  · intro hn
    simp [sendSync, truthyStr, hn]
  · intro a ha hs
    simp [sendSync, truthyStr, hs, ha]

/-- Witness for C4: empty store gives `[]`; a store holding `"0xabc"`
gives `["0xabc"]`. -/
theorem C4_eth_accounts_sync_witness :
    (sendSync emptyStore ⟨some 1, some "2.0", "eth_accounts", []⟩ =
      Except.ok (⟨some 1, some "2.0", RVal.rarr []⟩, [])) ∧
    (sendSync ⟨some (JVal.str "0xabc"), none⟩
        ⟨some 1, some "2.0", "eth_accounts", []⟩ =
      Except.ok (⟨some 1, some "2.0", RVal.rarr ["0xabc"]⟩, [])) :=
  ⟨(C4_eth_accounts_sync emptyStore (some 1) (some "2.0") []).1 rfl,
   (C4_eth_accounts_sync ⟨some (JVal.str "0xabc"), none⟩ (some 1)
      (some "2.0") []).2 "0xabc" (by decide) rfl⟩

/-- C5: for every method outside the fixed allow-list, `_sendSync`
throws synchronously (it reaches the `default:` branch and produces a
thrown error, not a response), and the thrown message both names the
offending method and carries the FAQ link as actionable guidance. -/
theorem C5_unsupported_sync_throws (store : Snap) (p : Payload)
    (h1 : p.method ≠ "eth_accounts") (h2 : p.method ≠ "eth_coinbase")
    (h3 : p.method ≠ "eth_uninstallFilter") (h4 : p.method ≠ "net_version") :
    ∃ s t, sendSync store p = Except.error (s ++ p.method ++ t) ∧
      (∃ u w, t = u ++ syncFaqLink ++ w) := by
  refine ⟨"The MetaMask Web3 object does not support synchronous methods like ",
    " without a callback parameter. See " ++ syncFaqLink ++ " for details.",
    ?_, " without a callback parameter. See ", " for details.", rfl⟩
  simp only [sendSync, h1, h2, h3, h4, if_false]
  rw [Except.error.injEq]
  simp only [← String.append_assoc]

/-- Witness for C5 at the unsupported method `eth_call`. -/
theorem C5_unsupported_sync_throws_witness :
    ∃ s t, sendSync emptyStore ⟨some 1, some "2.0", "eth_call", []⟩ =
        Except.error (s ++ "eth_call" ++ t) ∧
      (∃ u w, t = u ++ syncFaqLink ++ w) :=
  C5_unsupported_sync_throws emptyStore ⟨some 1, some "2.0", "eth_call", []⟩
    (by decide) (by decide) (by decide) (by decide)

/-- C7: a synchronous `eth_uninstallFilter` call returns
`\x7b result: true \x7d` immediately and dispatches exactly one
asynchronous call carrying the very same payload. -/
theorem C7_uninstallFilter_sync (store : Snap) (p : Payload)
    (h : p.method = "eth_uninstallFilter") :
    sendSync store p =
      Except.ok (⟨p.id, p.jsonrpc, RVal.rbool true⟩, [p]) := by
  simp [sendSync, h]

/-- Witness for C7 at a concrete payload. -/
theorem C7_uninstallFilter_sync_witness :
    sendSync emptyStore ⟨some 7, some "2.0", "eth_uninstallFilter", ["0x1"]⟩ =
      Except.ok (⟨some 7, some "2.0", RVal.rbool true⟩,
        [⟨some 7, some "2.0", "eth_uninstallFilter", ["0x1"]⟩]) :=
  C7_uninstallFilter_sync emptyStore
    ⟨some 7, some "2.0", "eth_uninstallFilter", ["0x1"]⟩ rfl

/-! ### The access-request entry point `enable` (lines 196–232) -/

/-- A JSON-RPC error object `\x7b code, message \x7d`. -/
structure ErrObj where
  code : Int
  message : String
deriving DecidableEq, Repr

/-- The response object seen by the `enable` callback: an optional error
and an optional result. -/
structure RpcResponse where
  error : Option ErrObj
  result : Option RVal
deriving DecidableEq, Repr

/-- How the promise returned by `enable` is settled by its `sendAsync`
callback.  `rejectSys` is the `if (err)` branch; `rejectExact` rejects
with the server's error object verbatim; `rejectWrapped e c` rejects
with the literal object `\x7b message: e, code: c \x7d`; `proceed` is
the success path (set the module flag `isEnabled` and resolve with
`getAccounts`). -/
inductive EnableOutcome where
  | rejectSys : String → EnableOutcome
  | rejectExact : ErrObj → EnableOutcome
  | rejectWrapped : ErrObj → Int → EnableOutcome
  | proceed : EnableOutcome
deriving DecidableEq, Repr

/-- The callback body of `MetamaskInpageProvider.prototype.enable`,
lines 207–230: reject with `err` on a system error; reject with
`res.error` itself when `res.error.code === 5` (user rejection); reject
with `\x7b message: res.error, code: 4001 \x7d` on any other response
error; otherwise set `isEnabled` and resolve via `getAccounts`. -/
def enableCallback (err : Option String) (res : RpcResponse) :
    EnableOutcome :=
  match err with
  | some e => EnableOutcome.rejectSys e
  | none =>
    match res.error with
    | some eo =>
      if eo.code = 5 then EnableOutcome.rejectExact eo
      else EnableOutcome.rejectWrapped eo 4001
    | none => EnableOutcome.proceed

/-- C6: when the permission-request response carries an error with code
5, `enable` rejects with that exact error object (still exposing code
5); when it carries an error with any other code, `enable` rejects with
the normalized wrapper `\x7b message: error, code: 4001 \x7d`, which is
not the server error verbatim. -/
theorem C6_enable_rejection (res : RpcResponse) (eo : ErrObj)
    (h : res.error = some eo) :
    (eo.code = 5 →
      enableCallback none res = EnableOutcome.rejectExact eo) ∧
    (eo.code ≠ 5 →
      enableCallback none res = EnableOutcome.rejectWrapped eo 4001 ∧
      EnableOutcome.rejectWrapped eo 4001 ≠ EnableOutcome.rejectExact eo) := by
  constructor
  · intro h5
    simp [enableCallback, h, h5]
  · intro h5
    refine ⟨by simp [enableCallback, h, h5], ?_⟩
    intro he
    exact EnableOutcome.noConfusion he

/-- Witness for C6: a code-5 error is rejected verbatim; a code-3 error
is rejected as the 4001 wrapper. -/
theorem C6_enable_rejection_witness :
    (enableCallback none ⟨some ⟨5, "User rejected"⟩, none⟩ =
      EnableOutcome.rejectExact ⟨5, "User rejected"⟩) ∧
    (enableCallback none ⟨some ⟨3, "boom"⟩, none⟩ =
      EnableOutcome.rejectWrapped ⟨3, "boom"⟩ 4001) :=
  ⟨(C6_enable_rejection ⟨some ⟨5, "User rejected"⟩, none⟩
      ⟨5, "User rejected"⟩ rfl).1 rfl,
   ((C6_enable_rejection ⟨some ⟨3, "boom"⟩, none⟩
      ⟨3, "boom"⟩ rfl).2 (by decide)).1⟩

/-! ### The disconnect handler `logStreamDisconnectWarning` (326–334) -/

/-- State visible to the disconnect handler: the module-level
`isConnected` flag, the transport-ids of the calls still pending in the
RPC connection, and the number of registered `error` listeners. -/
structure DisconnectState where
  isConnected : Bool
  pendingCalls : List Nat
  errorListeners : Nat
deriving DecidableEq, Repr

/-- Events a disconnect could observably produce: the emitted `error`
diagnostic, or the completion of a pending call with a connection-error
kind (the behaviour the specification requires). -/
inductive DiscEvent where
  | errorEvent : String → DiscEvent
  | completedConnError : Nat → DiscEvent
deriving DecidableEq, Repr

/-- `logStreamDisconnectWarning(remoteLabel, err)`, lines 326–334: set
`isConnected = false`, build the warning string (appending `err.stack`
when an error is present), and emit `error` only when at least one
listener is registered.  Nothing else happens: in particular the set of
pending calls is not touched. -/
def logStreamDisconnectWarning (remoteLabel : String) (err : Option String)
    (st : DisconnectState) : DisconnectState × List DiscEvent :=
  let warningMsg := "MetamaskInpageProvider - lost connection to "
    ++ remoteLabel ++
    (match err with
     | some stack => "\n" ++ stack
     | none => "")
  ({ st with isConnected := false },
   if st.errorListeners > 0 then [DiscEvent.errorEvent warningMsg] else [])

/-- C1 evaluation at the failing input: the stream ends while calls 1
and 2 are pending (one `error` listener registered).  The handler
leaves both calls pending, emits only the warning string — no
connection-error completion for either call — and flips `isConnected`
to `false`. -/
theorem C1_disconnect_leaves_calls_pending :
    (logStreamDisconnectWarning "MetaMask" none ⟨true, [1, 2], 1⟩).1.pendingCalls
      = [1, 2] ∧
    (logStreamDisconnectWarning "MetaMask" none ⟨true, [1, 2], 1⟩).2
      = [DiscEvent.errorEvent
          "MetamaskInpageProvider - lost connection to MetaMask"] ∧
    (logStreamDisconnectWarning "MetaMask" none ⟨true, [1, 2], 1⟩).1.isConnected
      = false := by
  refine ⟨rfl, ?_, rfl⟩
  simp [logStreamDisconnectWarning]

/-! ### Inbound server-push handling: `receive` (92–107) and
`_subscribe` (295–301) -/

/-- The `params` object of a parsed subscription push, as read by the
`_subscribe` listener through `params.result`. -/
structure ParamsVal where
  result : RVal
deriving DecidableEq, Repr

/-- A JavaScript value flowing through the push pipeline: either a
string (property access yields `undefined`) or an object with optional
`method` and `params` properties. -/
inductive MsgVal where
  | vstr : String → MsgVal
  | vobj : Option String → Option ParamsVal → MsgVal
deriving DecidableEq, Repr

/-- JavaScript property access `x.method`: `undefined` (`none`) on a
string value. -/
def msgMethod : MsgVal → Option String
  | MsgVal.vstr _ => none
  | MsgVal.vobj m _ => m

/-- JavaScript property access `x.params`: `undefined` (`none`) on a
string value. -/
def msgParams : MsgVal → Option ParamsVal
  | MsgVal.vstr _ => none
  | MsgVal.vobj _ p => p

/-- One `data` emission `this.emit('data', null, message)`: the error
argument (always `null` in `receive`) and the payload argument. -/
structure DataEmit where
  error : Option String
  payload : MsgVal
deriving DecidableEq, Repr

/-- `MetamaskInpageProvider.prototype.receive`, lines 92–107.  `message`
is the raw inbound value and `parsed` the outcome of
`JSON.parse(message)` (`none` when parsing throws, in which case the
whole body is swallowed by the `catch`).  When the parsed data has
`method === 'eth_subscription'` the provider emits
`('data', null, message)` — note: the RAW `message`, not the parsed
object. -/
def receive (message : String) (parsed : Option MsgVal) : List DataEmit :=
  match parsed with
  | none => []
  | some data =>
    if msgMethod data = some "eth_subscription"
    then [⟨none, MsgVal.vstr message⟩] else []

/-- The `data` listener installed by
`MetamaskInpageProvider.prototype._subscribe`, lines 296–300:
destructure `\x7b method, params \x7d` from the payload and, when there
is no error and `method === 'eth_subscription'`, emit `notification`
with `params.result`.  Reading `params.result` when `params` is
`undefined` is a thrown `TypeError`, modelled as `Except.error`. -/
def subscribeOnData (err : Option String) (payload : MsgVal) :
    Except String (List RVal) :=
  if err = none ∧ msgMethod payload = some "eth_subscription" then
    match msgParams payload with
    | some pv => Except.ok [pv.result]
    | none => Except.error "TypeError: cannot read property result of undefined"
  else Except.ok []

/-- The notifications produced end-to-end for one inbound message: feed
every `data` emission of `receive` to the `_subscribe` listener. -/
def pushNotifications (message : String) (parsed : Option MsgVal) :
    List (Except String (List RVal)) :=
  (receive message parsed).map (fun e => subscribeOnData e.error e.payload)

/-- A concrete raw subscription push as it would appear on the wire. -/
def subMsgRaw : String :=
  "\x7b\"method\":\"eth_subscription\",\"params\":\x7b\"result\":\"0x1\"\x7d\x7d"

/-- Its parse: an object with `method = \"eth_subscription\"` and
`params.result = \"0x1\"`. -/
def subMsgParsed : MsgVal :=
  MsgVal.vobj (some "eth_subscription") (some ⟨RVal.rstr "0x1"⟩)

/-- C8 evaluation at the failing input: for a recognized
`eth_subscription` push the provider emits exactly one `data` event —
whose payload is the raw string, not the parsed envelope object — and
the `_subscribe` listener, fed that emission, produces zero
`notification` events, because destructuring `method` out of a string
yields `undefined`.  So the claimed `notification` with the unwrapped
`params.result` is never emitted. -/
theorem C8_no_notification_emitted :
    receive subMsgRaw (some subMsgParsed) =
      [⟨none, MsgVal.vstr subMsgRaw⟩] ∧
    msgMethod (MsgVal.vstr subMsgRaw) = none ∧
    pushNotifications subMsgRaw (some subMsgParsed) = [Except.ok []] := by
  refine ⟨rfl, rfl, ?_⟩
  simp [pushNotifications, receive, subMsgParsed, subscribeOnData, msgMethod]

/-- The `_subscribe` listener never yields a notification for any `data`
event that `receive` can emit, whatever the inbound message and however
it parses: every emitted payload is a raw string, on which the
destructured `method` is `undefined`. -/
theorem receive_data_never_notifies (message : String)
    (parsed : Option MsgVal) :
    ∀ r ∈ pushNotifications message parsed, r = Except.ok [] := by
  intro r hr
  cases parsed with
  | none => simp [pushNotifications, receive] at hr
  | some data =>
    simp only [pushNotifications, receive] at hr
    by_cases he : msgMethod data = some "eth_subscription"
    · rw [if_pos he] at hr
      simp only [List.map_cons, List.map_nil] at hr
      rw [List.mem_singleton.mp hr]
      rfl
    · rw [if_neg he] at hr
      simp at hr

/-! ### Module-level flags shared across provider instances (C10) -/

/-- Process state: the two module-level flags `isEnabled` and
`isConnected` declared at lines 12–13 of `src/index.js` (shared by every
`MetamaskInpageProvider` constructed in the process) together with each
instance's own mirror. -/
structure ProcState where
  isEnabled : Bool
  isConnected : Bool
  mirrors : Nat → Mirror

/-- `MetamaskInpageProvider.prototype.isEnabled`, lines 249–251: reads
the module-level flag, whatever instance `i` it is invoked on. -/
def isEnabledRead (st : ProcState) (_i : Nat) : Bool := st.isEnabled

/-- `MetamaskInpageProvider.prototype.isConnected`, lines 258–260: reads
the module-level flag, whatever instance `i` it is invoked on. -/
def isConnectedRead (st : ProcState) (_i : Nat) : Bool := st.isConnected

/-- The success path of `enable` (line 226): `isEnabled = true` on the
module, not on the instance. -/
def enableSuccess (st : ProcState) : ProcState :=
  { st with isEnabled := true }

/-- Deliver a snapshot to instance `i`'s `publicConfigStore.subscribe`
handler: the module flag and that instance's mirror are updated, other
instances' mirrors are untouched. -/
def deliverSnap (st : ProcState) (i : Nat) (s : Snap) :
    ProcState × List PEvent :=
  let r := handleSnap st.isConnected (st.mirrors i) s
  ({ st with
      isConnected := r.1,
      mirrors := fun k => if k = i then r.2.1 else st.mirrors k },
   r.2.2)

/-- Deliver a list of `(instance, snapshot)` pairs in order; returns the
event lists per delivery. -/
def runDeliveries (st : ProcState) : List (Nat × Snap) → List (List PEvent)
  | [] => []
  | d :: rest =>
    let r := deliverSnap st d.1 d.2
    r.2 :: runDeliveries r.1 rest

theorem deliverSnap_connected (st : ProcState) (i : Nat) (s : Snap) :
    (deliverSnap st i s).1.isConnected = true := by
  unfold deliverSnap
  exact handleSnap_connected st.isConnected (st.mirrors i) s

theorem runDeliveries_connected_no_connect (ds : List (Nat × Snap)) :
    ∀ st : ProcState, st.isConnected = true →
      ((runDeliveries st ds).map countConnect).sum = 0 := by
  induction ds with
  | nil => intro st _; rfl
  | cons d rest ih =>
    intro st hc
    unfold runDeliveries
    rw [List.map_cons, List.sum_cons]
    have h1 : countConnect (deliverSnap st d.1 d.2).2 = 0 := by
      unfold deliverSnap
      rw [hc]
      exact countConnect_handleSnap_true _ _
    rw [h1, ih _ (deliverSnap_connected st d.1 d.2)]

/-- C10: `isEnabled` and `isConnected` are module-level state shared by
every provider instance in the process.  The reads are
instance-independent; after any one instance's `enable` succeeds,
`isEnabledRead` is true on every instance; after any one instance
receives a snapshot, `isConnectedRead` is true on every instance; and
across any process-wide sequence of snapshot deliveries to arbitrary
instances starting disconnected, `connect` is emitted exactly once in
total, on the first delivery. -/
theorem C10_module_level_flags (st : ProcState) :
    (∀ i j, isEnabledRead st i = isEnabledRead st j ∧
      isConnectedRead st i = isConnectedRead st j) ∧
    (∀ j, isEnabledRead (enableSuccess st) j = true) ∧
    (∀ i s j, isConnectedRead (deliverSnap st i s).1 j = true) ∧
    (st.isConnected = false → ∀ (d : Nat × Snap) (rest : List (Nat × Snap)),
      ((runDeliveries st (d :: rest)).map countConnect).sum = 1 ∧
      countConnect ((runDeliveries st (d :: rest)).headI) = 1) := by
  refine ⟨fun i j => ⟨rfl, rfl⟩, fun j => rfl,
    fun i s j => deliverSnap_connected st i s, ?_⟩
  intro hc d rest
  constructor
  · simp only [runDeliveries]
    rw [List.map_cons, List.sum_cons]
    have h1 : countConnect (deliverSnap st d.1 d.2).2 = 1 := by
      unfold deliverSnap
      rw [hc]
      exact countConnect_handleSnap_false _ _
    rw [h1,
      runDeliveries_connected_no_connect rest _ (deliverSnap_connected st d.1 d.2)]
  · simp only [runDeliveries, List.headI]
    unfold deliverSnap
    rw [hc]
    exact countConnect_handleSnap_false _ _

/-- Witness for C10: with two instances in a fresh process, enabling
through instance 0 makes `isEnabledRead` true on instance 1, a snapshot
delivered to instance 0 makes `isConnectedRead` true on instance 1, and
a process-wide run delivering one snapshot to each instance emits
exactly one `connect`. -/
theorem C10_module_level_flags_witness :
    (isEnabledRead
      (enableSuccess ⟨false, false, fun _ => Mirror.init⟩) 1 = true) ∧
    (isConnectedRead
      (deliverSnap ⟨false, false, fun _ => Mirror.init⟩ 0
        ⟨some (JVal.str "0xabc"), none⟩).1 1 = true) ∧
    (((runDeliveries ⟨false, false, fun _ => Mirror.init⟩
        [(0, ⟨some (JVal.str "0xabc"), none⟩),
         (1, ⟨some (JVal.str "0xabc"), none⟩)]).map
        countConnect).sum = 1) :=
  ⟨(C10_module_level_flags ⟨false, false, fun _ => Mirror.init⟩).2.1 1,
   (C10_module_level_flags ⟨false, false, fun _ => Mirror.init⟩).2.2.1 0
     ⟨some (JVal.str "0xabc"), none⟩ 1,
   ((C10_module_level_flags ⟨false, false, fun _ => Mirror.init⟩).2.2.2 rfl
     (0, ⟨some (JVal.str "0xabc"), none⟩)
     [(1, ⟨some (JVal.str "0xabc"), none⟩)]).1⟩

end Inpage
